import Mathlib

/-!
Verification development for the astrbot_plugin_rconsole repository.

The Python source of the plugin (src/core/bili23.py, src/core/douyin.py,
src/core/xhs.py, src/core/common.py, src/main.py) is shallowly embedded
below.  External effects (HTTP requests, file writes/removals, cache
reads/writes, the ffmpeg mux invocation and the chat replies yielded to
the host) are recorded in an explicit trace; results of external calls
are drawn from per-handler environment records.  Python exceptions are
modelled as values of `Exc` carrying the exception class name, so that
`except`-clauses that only catch specific classes can be translated
faithfully.  Loosely structured upstream JSON payloads are modelled by
the `JVal` type together with Python-accurate access helpers (`pyGetItem`
raising KeyError/TypeError, `pyGetD` raising AttributeError on non-dicts,
Python truthiness, negative list indexing, and so on).
-/

/-- Exception value: Python exception class name plus its message
(`str(e)` is modelled as the message). -/
structure Exc where
  cls : String
  msg : String
deriving Repr, DecidableEq

/-- JSON-like Python value, used for upstream API payloads and cached
records.  Numbers are modelled as integers (all counters, ids,
timestamps and durations handled by the plugin are integral). -/
inductive JVal where
  | null : JVal
  | bool (b : Bool) : JVal
  | num (n : Int) : JVal
  | str (s : String) : JVal
  | arr (xs : List JVal) : JVal
  | obj (kvs : List (String × JVal)) : JVal
deriving Repr, Inhabited

namespace JVal

/-- Python truthiness of a JSON-like value (`if x:`). -/
def truthy : JVal → Bool
  | .null => false
  | .bool b => b
  | .num n => n != 0
  | .str s => !s.isEmpty
  | .arr xs => !xs.isEmpty
  | .obj kvs => !kvs.isEmpty

/-- Association lookup in a dict payload (dicts have unique keys). -/
def find? : JVal → String → Option JVal
  | .obj kvs, k => kvs.lookup k
  | _, _ => none

def isObj : JVal → Bool
  | .obj _ => true
  | _ => false

def isArr : JVal → Bool
  | .arr _ => true
  | _ => false

end JVal

/-- `str()` rendering of a payload value as used inside f-strings.
Container reprs are abbreviated (the source never interpolates
containers into user-visible strings on the paths modelled here). -/
def pyStr : JVal → String
  | .null => "None"
  | .bool b => if b then "True" else "False"
  | .num n => toString n
  | .str s => s
  | .arr _ => "[...]"
  | .obj _ => "{...}"

/-- Character-list test used for substring search (structural, so that
concrete runs evaluate inside the kernel). -/
def startsWithL : List Char → List Char → Bool
  | [], _ => true
  | _ :: _, [] => false
  | a :: as, b :: bs => a == b && startsWithL as bs

/-- Occurrence of `sub` anywhere in `s` (character lists). -/
def hasInfixL (sub : List Char) : List Char → Bool
  | [] => startsWithL sub []
  | b :: bs => startsWithL sub (b :: bs) || hasInfixL sub bs

/-- `k in v` (Python `in` on a dict; TypeError on non-container,
mirroring CPython). Only dict membership is exercised by the source. -/
def pyIn (k : String) (v : JVal) : Except Exc Bool :=
  match v with
  | .obj kvs => .ok (kvs.any (fun kv => kv.1 == k))
  | .arr xs => .ok (xs.any (fun x => match x with | .str t => t == k | _ => false))
  | .str s => .ok (hasInfixL k.data s.data)
  | _ => .error ⟨"TypeError", "argument of type is not iterable"⟩

/-- `v[k]` subscript on a dict: KeyError when absent, TypeError when the
value is not subscriptable by a string. -/
def pyGetItem (v : JVal) (k : String) : Except Exc JVal :=
  match v with
  | .obj kvs =>
    match kvs.lookup k with
    | some x => .ok x
    | none => .error ⟨"KeyError", k⟩
  | _ => .error ⟨"TypeError", "object is not subscriptable"⟩

/-- `v.get(k, d)`: AttributeError when `v` is not a dict. -/
def pyGetD (v : JVal) (k : String) (d : JVal) : Except Exc JVal :=
  match v with
  | .obj kvs => .ok ((kvs.lookup k).getD d)
  | _ => .error ⟨"AttributeError", "object has no attribute get"⟩

/-- `v[i]` on a list, with Python negative indexing and IndexError. -/
def pyIndex (v : JVal) (i : Int) : Except Exc JVal :=
  match v with
  | .arr xs =>
    let j : Int := if i < 0 then i + xs.length else i
    if h : 0 ≤ j ∧ j.toNat < xs.length then
      .ok (xs.get ⟨j.toNat, h.2⟩)
    else
      .error ⟨"IndexError", "list index out of range"⟩
  | _ => .error ⟨"TypeError", "object is not subscriptable"⟩

/-- Python `str.strip()`: drop whitespace from both ends. -/
def pyStrip (s : String) : String :=
  String.mk (((s.data.dropWhile Char.isWhitespace).reverse.dropWhile
    Char.isWhitespace).reverse)

/-- The prefix of `s` before the first occurrence of `c`
(the `url.index` slice and `url.split` head at their call sites,
where the separator is known to occur or the whole string is wanted). -/
def strBeforeChar (s : String) (c : Char) : String :=
  String.mk (s.data.takeWhile (fun x => x ≠ c))

/-- `int(v)`: numbers pass through, numeric strings are parsed
(ValueError otherwise), booleans coerce, anything else is a TypeError. -/
def pyInt (v : JVal) : Except Exc Int :=
  match v with
  | .num n => .ok n
  | .bool b => .ok (if b then 1 else 0)
  | .str s =>
    match (pyStrip s).toInt? with
    | some n => .ok n
    | none => .error ⟨"ValueError", "invalid literal for int"⟩
  | _ => .error ⟨"TypeError", "int argument must be a string or a number"⟩

/-- Substring containment, Python `sub in s` on strings. -/
def strContains (s sub : String) : Bool :=
  hasInfixL sub.data s.data

/-- Message components of an outgoing chat message (Comp.Plain,
Comp.Image.fromURL, Comp.Image.fromFileSystem, Comp.Video.fromURL,
Comp.Video.fromFileSystem). -/
inductive MsgComp where
  | plain (s : String) : MsgComp
  | imageURL (u : String) : MsgComp
  | imageFS (p : String) : MsgComp
  | videoURL (u : String) : MsgComp
  | videoFS (p : String) : MsgComp
deriving Repr, DecidableEq

/-- A reply yielded back to the host: plain text, a component chain, or
a forwarded bundle of attributable sub-message nodes. -/
inductive Reply where
  | plain (s : String) : Reply
  | chain (items : List MsgComp) : Reply
  | forward (name uin : String) (nodes : List (List MsgComp)) : Reply
deriving Repr, DecidableEq

/-- Externally visible effects of one handler run, in program order. -/
inductive Eff where
  | net (url : String) (followRedirects : Bool) : Eff
  | cacheRead (noteId : String) : Eff
  | cacheWrite (noteId : String) : Eff
  | fwrite (path : String) : Eff
  | fremove (path : String) : Eff
  | mux (videoPath audioPath outPath : String) : Eff
  | send (r : Reply) : Eff
deriving Repr, DecidableEq

/-- Effectful computation: the trace of effects emitted so far together
with either a result or an uncaught Python exception. -/
def M (α : Type) : Type := List Eff × Except Exc α

instance : Monad M where
  pure a := ([], .ok a)
  bind x f :=
    match x with
    | (t, .ok a) =>
      match f a with
      | (t2, r) => (t ++ t2, r)
    | (t, .error e) => (t, .error e)

namespace M

def run {α : Type} (x : M α) : List Eff × Except Exc α := x

/-- Trace of effects emitted by a computation. -/
def trace {α : Type} (x : M α) : List Eff := x.1

/-- Final outcome: `.ok` when the computation returned normally,
`.error e` when a Python exception propagated out of it. -/
def result {α : Type} (x : M α) : Except Exc α := x.2

end M

/-- Emit one effect. -/
def emit (e : Eff) : M Unit := ([e], .ok ())

/-- Raise a Python exception. -/
def pyRaise {α : Type} (e : Exc) : M α := ([], .error e)

/-- Lift the outcome of an external call drawn from the environment. -/
def liftE {α : Type} (r : Except Exc α) : M α := ([], r)

/-- `try: body except <classes matching catches> as e: handler e`. -/
def pytry {α : Type} (body : M α) (catches : Exc → Bool) (handler : Exc → M α) : M α :=
  match body with
  | (t, .ok a) => (t, .ok a)
  | (t, .error e) =>
    if catches e then
      match handler e with
      | (t2, r) => (t ++ t2, r)
    else (t, .error e)

/-- `try: body finally: fin` — the cleanup always runs; an exception
from the body still propagates afterwards (our cleanup never raises). -/
def pyfinally {α : Type} (body : M α) (fin : M Unit) : M α :=
  match body, fin with
  | (t, r), (t2, _) => (t ++ t2, r)

/-- Files still on disk after a run: every path written by a download
and not subsequently removed.  The muxer output file is produced by
ffmpeg, not downloaded, and is not tracked here. -/
def remainingFiles (t : List Eff) : List String :=
  t.foldl
    (fun acc e =>
      match e with
      | .fwrite p => if acc.contains p then acc else acc ++ [p]
      | .fremove p => acc.filter (fun q => q ≠ p)
      | _ => acc) []

/-! ## src/core/common.py -/

/-- Character class of `delete_boring_characters` (src/core/common.py line 14),
transliterated: Python `\s` is rendered as the ASCII whitespace characters
(further Unicode whitespace is out of scope for the claims). -/
def boringChars : String :=
  "0123456789\x27!\"∀〃#$%&()*+,-./:;<=>?@，。?★、…【】《》？“”‘’！[\\]^_\x60\x7b|\x7d~～ \t\n\x0b\x0c\r"

/-- `delete_boring_characters`: strip decorative punctuation from a title. -/
def delete_boring_characters (sentence : String) : String :=
  String.mk (sentence.data.filter (fun c => !(boringChars.data.contains c)))

/-- Python dict assignment `d[k] = v` on an insertion-ordered dict
represented as an association list with unique keys. -/
def dictSet (d : List (String × String)) (k v : String) : List (String × String) :=
  if d.any (fun kv => kv.1 == k) then
    d.map (fun kv => if kv.1 == k then (k, v) else kv)
  else d ++ [(k, v)]

/-- Environment for `remove_files`: whether `os.remove` on a given path
raises, and with which message (`str(e)`). -/
structure RemoveEnv where
  removeErr : String → Option String

/-- Loop body of `remove_files` (src/core/common.py lines 28-36): the
filesystem is the list of existing paths; a raising `os.remove` leaves
the file in place. -/
def removeFilesGo (env : RemoveEnv) :
    List String → List (String × String) → List String →
    List (String × String) × List String
  | fs, results, [] => (results, fs)
  | fs, results, p :: rest =>
    if p ∈ fs then
      match env.removeErr p with
      | none => removeFilesGo env (fs.filter (fun q => q ≠ p)) (dictSet results p "remove") rest
      | some m => removeFilesGo env fs (dictSet results p ("error: " ++ m)) rest
    else
      removeFilesGo env fs (dictSet results p "don\x27t exist") rest

/-- `remove_files(file_paths)`: returns the path→status dict and the
filesystem after the call. -/
def remove_files (env : RemoveEnv) (fs : List String) (paths : List String) :
    List (String × String) × List String :=
  removeFilesGo env fs [] paths

/-- `create_forward_message` / `send_forward_message`: the handlers only
pass plain component lists (never the dict-shaped items), and never
override the sender, so the bundle carries the name and id of the
requesting user and the node contents in list order. -/
def send_forward_message (senderName senderId : String)
    (contentList : List (List MsgComp)) : Reply :=
  .forward senderName senderId contentList

/-! ## src/core/xhs.py — cache -/

/-- The `xhs_cache` directory: one JSON file per note id, modelled as a
map from note id to the parsed file content. -/
def CacheFS : Type := String → Option JVal

/-- `save_to_cache(note_id, data)`: writes `{"timestamp": int(time.time()),
"data": data}`; the enclosing try/except swallows write errors
(`writeOk = false` leaves the store unchanged).  JSON serialisation of
the structured record is faithful and abstracted as the identity. -/
def save_to_cache (writeOk : Bool) (now : Int) (fs : CacheFS) (noteId : String)
    (data : JVal) : CacheFS :=
  if writeOk then
    fun id2 => if id2 = noteId then
        some (.obj [("timestamp", .num now), ("data", data)])
      else fs id2
  else fs

/-- `get_from_cache(note_id, max_age)`: Python `None` is rendered as
`JVal.null`.  Missing file → None; `cache_data.get("timestamp", 0)`;
miss when `current_time - timestamp > max_age`; otherwise
`cache_data.get("data")`.  Unreadable or non-dict content (the
try/except) also yields None. -/
def get_from_cache (now : Int) (fs : CacheFS) (noteId : String) (maxAge : Int) : JVal :=
  match fs noteId with
  | none => .null
  | some cacheData =>
    match cacheData with
    | .obj kvs =>
      match (kvs.lookup "timestamp").getD (.num 0) with
      | .num ts => if now - ts > maxAge then .null else (kvs.lookup "data").getD .null
      | _ => .null
    | _ => .null

/-! ## src/core/bili23.py — stats formatter and duration caption -/

/-- Nearest integer to `num / den`, ties to even (den positive). -/
def roundHalfEven (num den : Nat) : Nat :=
  let q := num / den
  let r := num % den
  if 2 * r < den then q
  else if 2 * r > den then q + 1
  else if q % 2 = 0 then q else q + 1

/-- Python `f"{k/10000:.1f}"`: one decimal digit of `k / 10000`.  Exact
`.05` ties follow the binary double and are abstracted here as exact
half-even rounding (no claim touches a tie). -/
def format1f (k : Int) : String :=
  let t := roundHalfEven k.natAbs 1000
  let s := toString (t / 10) ++ "." ++ toString (t % 10)
  if k < 0 then "-" ++ s else s

/-- Rendering of one integer stats counter in `extra_bili_info`
(src/core/bili23.py lines 96-99): abbreviated `X.Y万` strictly above
10000, the plain decimal otherwise. -/
def formatStatValue (k : Int) : String :=
  if k > 10000 then format1f k ++ "万" else toString k

/-- One `f"{key}: {formatted_value} | "` entry of `extra_bili_info`.
Non-numeric counter values follow the source: `int(value)` may raise,
and a string that parses above 10000 hits a TypeError at the `/ 10000`
division. -/
def extraBiliInfoEntry (key : String) (value : JVal) : Except Exc String :=
  match value with
  | .num k => .ok (key ++ ": " ++ formatStatValue k ++ " | ")
  | _ => do
    let i ← pyInt value
    if i > 10000 then
      .error ⟨"TypeError", "unsupported operand type for division"⟩
    else
      .ok (key ++ ": " ++ pyStr value ++ " | ")

/-- `extra_bili_info(video_info)` (src/core/bili23.py lines 75-102). -/
def extra_bili_info (videoInfo : JVal) : Except Exc String := do
  let videoState ← pyGetItem videoInfo "stat"
  let vLike ← pyGetItem videoState "like"
  let vCoin ← pyGetItem videoState "coin"
  let vFavorite ← pyGetItem videoState "favorite"
  let vShare ← pyGetItem videoState "share"
  let vView ← pyGetItem videoState "view"
  let vDanmaku ← pyGetItem videoState "danmaku"
  let vReply ← pyGetItem videoState "reply"
  let entries := [("点赞", vLike), ("硬币", vCoin), ("收藏", vFavorite),
    ("分享", vShare), ("总播放量", vView), ("弹幕数量", vDanmaku), ("评论", vReply)]
  entries.foldlM (fun acc kv => do
    let s ← extraBiliInfoEntry kv.1 kv.2
    pure (acc ++ s)) ""

/-- The duration-excess warning line (src/core/bili23.py line 311);
both durations are minutes obtained by Python floor division `// 60`. -/
def biliDurationWarning (durationMin maximumMin : Int) : String :=
  s!"⚠️ 当前视频时长 {durationMin} 分钟，超过管理员设置的最长时间 {maximumMin} 分钟！"

/-- The video-info reply of `process_bilibili_url` (src/core/bili23.py
lines 301-312): cover image plus caption, with the warning line appended
exactly when the duration exceeds the configured maximum. -/
def biliVideoReply (cover title info desc onlineStr : String)
    (duration maximum : Int) : Reply :=
  if duration ≤ maximum then
    .chain [.imageURL cover,
      .plain s!"\n识别：B站，{title}\n{info}\n📝 简介：{desc}\n{onlineStr}"]
  else
    let durMin := duration.fdiv 60
    let maxMin := maximum.fdiv 60
    .chain [.imageURL cover,
      .plain (s!"\n识别：B站，{title}\n{info}\n简介：{desc}\n{onlineStr}\n---------\n"
        ++ biliDurationWarning durMin maxMin)]

/-! ## src/core/douyin.py -/

/-- An HTTP response as observed by the redirect resolver: status code,
the `Location` header when present, and `str(response.url)`. -/
structure HttpResp where
  status : Nat
  location : Option String
  url : String
deriving Repr, DecidableEq

/-- Python string equality between a payload value and a literal. -/
def pyEqStr (v : JVal) (s : String) : Bool :=
  match v with
  | .str t => t == s
  | _ => false

/-- Rendering of an optional string in an f-string (`None` when absent). -/
def optStr (o : Option String) : String := o.getD "None"

/-- A payload value as an optional URL string: `None` stays absent,
strings pass through (non-string shapes are rendered; no claim touches
them). -/
def pyOptStr : JVal → Option String
  | .null => none
  | v => some (pyStr v)

/-- Modelled from the spec: `DOUYIN_VIDEO_API`, the platform API URL
template of the constants module (src/constants/douyin.py) absent from
src/; only its shape — an endpoint parametrised by the content id —
matters for the claims. -/
def DOUYIN_VIDEO_API (contentId : String) : String :=
  "douyin-video-api/" ++ contentId

/-- Modelled from the spec: `DOUYIN_TOUTIAO_API`, the no-watermark
player address template of the absent constants module. -/
def DOUYIN_TOUTIAO_API (uri : String) : String :=
  "douyin-toutiao-api/" ++ uri

/-- `get_redirect_url(url)` (src/core/douyin.py lines 170-183): one GET
with `follow_redirects=False`; the `location` header value is returned
whenever present; otherwise `str(response.url)` on a 200 and `None` on
any other status; any exception is logged and yields `None`. -/
def get_redirect_url (url : String) (resp : Except Exc HttpResp) : M (Option String) := do
  emit (.net url false)
  match resp with
  | .error _ => pure none
  | .ok r =>
    match r.location with
    | some loc => pure (some loc)
    | none => pure (if r.status == 200 then some r.url else none)

/-- Outcome of one image download attempt. -/
inductive ImgDl where
  | saved (path : String)
  | failAfterOpen (path : String)
  | failEarly
deriving Repr, DecidableEq

/-- `download_image(url)` (src/core/douyin.py lines 186-222): catches
every exception internally and returns `None` on failure; a failure
after the local file was opened leaves the partial file on disk. -/
def download_image (url : String) (o : ImgDl) : M (Option String) := do
  emit (.net url true)
  match o with
  | .saved p => do emit (.fwrite p); pure (some p)
  | .failAfterOpen p => do emit (.fwrite p); pure none
  | .failEarly => pure none

/-- Environment of the slide-info fetch chain. -/
structure SlideEnv where
  xzResp : Except Exc JVal
  redirect2 : Except Exc HttpResp
  slideIdMatch : String → Option String
  itemListResp : Except Exc JVal

/-- Image URL entries of a payload list (`null` entries kept as `none`;
iteration over a non-list payload is out of scope and collapsed to the
empty list). -/
def urlEntries : JVal → List (Option String)
  | .arr xs => xs.map pyOptStr
  | _ => []

/-- `_get_douyin_slide_info_fallback(url)` (src/core/douyin.py lines
127-167): resolve the short link again, extract the slide id, query the
item-list API; every exception is caught and yields the empty result. -/
def douyinSlideFallback (url : String) (env : SlideEnv) :
    M (Option String × Option String × Option String × List (Option String)) :=
  pytry
    (do
      let realUrl? ← get_redirect_url url env.redirect2
      match realUrl? with
      | none => pure (none, none, none, [])
      | some realUrl =>
        match env.slideIdMatch realUrl with
        | none => pure (none, none, none, [])
        | some slideId => do
          emit (.net (DOUYIN_VIDEO_API slideId) false)
          let data ← liftE env.itemListResp
          let itemList0 ← liftE (pyGetD data "item_list" .null)
          if !itemList0.truthy then pure (none, none, none, [])
          else do
            let itemList ← liftE (pyGetItem data "item_list")
            let item ← liftE (pyIndex itemList 0)
            let author0 ← liftE (pyGetD item "author" (.obj []))
            let author ← liftE (pyGetD author0 "nickname" (.str "未知作者"))
            let title ← liftE (pyGetD item "desc" (.str "无标题"))
            let video0 ← liftE (pyGetD item "video" (.obj []))
            let cover0 ← liftE (pyGetD video0 "cover" (.obj []))
            let coverUl ← liftE (pyGetD cover0 "url_list" (.arr [.null]))
            let cover ← liftE (pyIndex coverUl 0)
            let imgs ← liftE (pyGetD item "images" (.arr []))
            let images ←
              match imgs with
              | .arr xs =>
                xs.foldlM (fun acc img => do
                  let ul ← liftE (pyGetD img "url_list" .null)
                  if ul.truthy then do
                    let ul2 ← liftE (pyGetItem img "url_list")
                    let first ← liftE (pyIndex ul2 0)
                    pure (acc ++ [pyOptStr first])
                  else pure acc) ([] : List (Option String))
              | _ => pure []
            pure (pyOptStr cover, pyOptStr author, pyOptStr title, images))
    (fun _ => true)
    (fun _ => pure (none, none, none, []))

/-- `get_douyin_slide_info(url)` (src/core/douyin.py lines 89-124): try
the third-party convenience API first; fall back on any miss or
exception. -/
def get_douyin_slide_info (url : String) (env : SlideEnv) :
    M (Option String × Option String × Option String × List (Option String)) :=
  pytry
    (do
      emit (.net ("https://api.xingzhige.com/API/douyin/?url=" ++ url) false)
      let data ← liftE env.xzResp
      let dataContent ← liftE (pyGetD data "data" (.obj []))
      let jx ← liftE (pyGetD dataContent "jx" (.obj []))
      let itemId ← liftE (pyGetD jx "item_id" .null)
      let itemType ← liftE (pyGetD jx "type" .null)
      if !itemId.truthy || !itemType.truthy then douyinSlideFallback url env
      else if pyEqStr itemType "图集" then do
        let item ← liftE (pyGetD dataContent "item" (.obj []))
        let cover ← liftE (pyGetD item "cover" (.str ""))
        let imagesJ ← liftE (pyGetD item "images" (.arr []))
        if imagesJ.truthy then do
          let author0 ← liftE (pyGetD dataContent "author" (.obj []))
          let author ← liftE (pyGetD author0 "name" (.str ""))
          let item2 ← liftE (pyGetD dataContent "item" (.obj []))
          let title ← liftE (pyGetD item2 "title" (.str ""))
          pure (pyOptStr cover, pyOptStr author, pyOptStr title, urlEntries imagesJ)
        else douyinSlideFallback url env
      else douyinSlideFallback url env)
    (fun _ => true)
    (fun _ => douyinSlideFallback url env)

/-- The forwarded-bundle node list of the slide branch
(src/core/douyin.py lines 269-297): intro node with the total image
count, then one node per successfully downloaded image — a failed
download (a `None` entry) is skipped while its index and the total
attempted count stay in the caption. -/
def douyinSlideNodes (title author : String) (imagesCount : Nat)
    (downloaded : List (Option String)) : List (List MsgComp) :=
  [MsgComp.plain (s!"抖音 | {title}\n作者: {author}\n\n图集共 {imagesCount} 张图片")] ::
  downloaded.enum.filterMap (fun ip =>
    match ip.2 with
    | some p =>
      some [MsgComp.imageFS p, MsgComp.plain s!"\n第 {ip.1 + 1}/{downloaded.length} 张"]
    | none => none)

/-- The forwarded-bundle node list of the image-post branch
(src/core/douyin.py lines 409-424): `url_list[1]` is evaluated whenever
`url_list` is truthy, so a singleton list raises IndexError. -/
def douyinImageNodes (desc author : String) (images : List JVal) :
    Except Exc (List (List MsgComp)) := do
  let per ← images.enum.foldlM (fun acc ip => do
    let ul ← pyGetD ip.2 "url_list" (.arr [])
    if ul.truthy then do
      let u1 ← pyIndex ul 1
      match u1 with
      | .null => pure acc
      | v =>
        let pos := ip.1 + 1
        let n := images.length
        pure (acc ++ [[MsgComp.imageURL (pyStr v), MsgComp.plain s!"\n第 {pos}/{n} 张"]])
    else pure acc) ([] : List (List MsgComp))
  pure ([MsgComp.plain (s!"抖音 | {desc}\n作者: {author}\n\n图集共 {images.length} 张图片")] :: per)

/-- Per-run environment of `process_douyin_url`: the message match, the
responses of each outbound call, the download outcomes and the sender
identity.  `urlTypeDict` is modelled from the spec: the fixed numeric
type-code table `URL_TYPE_CODE_DICT` lives in the constants module
absent from src/, so it is kept abstract (`.get` with default `video`). -/
structure DouyinEnv where
  msgMatch : Option String
  redirect1 : Except Exc HttpResp
  slide : SlideEnv
  imgDl : String → ImgDl
  slideSend : Except Exc Unit
  senderName : String
  senderId : String
  idMatch : String → Option (String × String)
  xbogus : Option String
  apiResp : Except Exc JVal
  urlTypeDict : Int → Option String
  imageSend : Except Exc Unit

/-- `generate_x_bogus_url` (src/core/douyin.py lines 54-86): best-effort
signing — the missing-execjs, missing-file and exception cases all
return the unsigned URL and are collapsed into `none`. -/
def generate_x_bogus_url (url : String) (sig : Option String) : String :=
  match sig with
  | none => url
  | some s => url ++ "&a_bogus=" ++ s

/-- Slide branch of `process_douyin_url` (src/core/douyin.py lines
257-326). -/
def douyinSlideBranch (env : DouyinEnv) (douyinUrl : String) : M Unit := do
  let info ← get_douyin_slide_info douyinUrl env.slide
  match info.2.1, info.1 with
  | some author, some cover => do
    let title := optStr info.2.2.1
    let images := info.2.2.2
    emit (.send (.chain [.imageURL cover,
      .plain s!"\n识别：抖音\n作者：{author}\n标题：{title}"]))
    if !images.isEmpty then do
      let urls := images.filterMap id
      let downloaded ← urls.mapM (fun u => download_image u (env.imgDl u))
      let nodes := douyinSlideNodes title author images.length downloaded
      match env.slideSend with
      | .ok _ => emit (.send (send_forward_message env.senderName env.senderId nodes))
      | .error _ => do
        emit (.send (.plain "合并转发失败，单独发送图片..."))
        downloaded.enum.forM (fun ip =>
          match ip.2 with
          | some p =>
            let pos := ip.1 + 1
            let n := downloaded.length
            emit (.send (.chain [.imageFS p, .plain s!"\n第 {pos}/{n} 张"]))
          | none => pure ())
      downloaded.forM (fun o =>
        match o with
        | some p => emit (.fremove p)
        | none => pure ())
    else pure ()
  | _, _ => emit (.send (.plain "抖音图集解析失败"))

/-- Video/image-post branch of `process_douyin_url` (src/core/douyin.py
lines 328-428). -/
def douyinContentBranch (env : DouyinEnv) (douyinCk douUrl2 : String) : M Unit := do
  match env.idMatch douUrl2 with
  | none => emit (.send (.plain "无法提取抖音视频/笔记ID"))
  | some idGroups => do
    let douyinId := idGroups.2
    if douyinCk.isEmpty then
      emit (.send (.plain "未设置抖音Cookie，无法获取无水印内容"))
    else do
      let apiUrl := generate_x_bogus_url (DOUYIN_VIDEO_API douyinId) env.xbogus
      emit (.net apiUrl false)
      let data ← liftE env.apiResp
      let hasDetail ← liftE (pyIn "aweme_detail" data)
      if !data.truthy || !hasDetail then
        emit (.send (.plain "抖音解析失败，无法获取内容详情"))
      else do
        let detail ← liftE (pyGetItem data "aweme_detail")
        let descJ ← liftE (pyGetD detail "desc" (.str "无标题"))
        let author0 ← liftE (pyGetD detail "author" (.obj []))
        let authorJ ← liftE (pyGetD author0 "nickname" (.str "未知作者"))
        let desc := pyStr descJ
        let author := pyStr authorJ
        let codeJ ← liftE (pyGetD detail "aweme_type" (.num 0))
        let urlType :=
          match codeJ with
          | .num n => (env.urlTypeDict n).getD "video"
          | _ => "video"
        if urlType == "video" then do
          let video0 ← liftE (pyGetD detail "video" (.obj []))
          let playAddr ← liftE (pyGetD video0 "play_addr" (.obj []))
          let uri ← liftE (pyGetD playAddr "uri" .null)
          if !uri.truthy then
            emit (.send (.plain "无法获取视频播放地址"))
          else do
            let playerRealAddr := DOUYIN_TOUTIAO_API (pyStr uri)
            let cover0 ← liftE (pyGetD video0 "cover" (.obj []))
            let coverUl ← liftE (pyGetD cover0 "url_list" (.arr [.null]))
            let coverJ ← liftE (pyIndex coverUl 0)
            match coverJ with
            | .null => emit (.send (.chain [.videoURL playerRealAddr]))
            | c => do
              emit (.send (.chain [.imageURL (pyStr c),
                .plain s!"识别：抖音\n作者：{author}\n标题：{desc}"]))
              emit (.send (.chain [.videoURL playerRealAddr]))
        else if urlType == "image" then do
          emit (.send (.chain [.plain s!"识别：抖音\n作者：{author}\n标题：{desc}"]))
          let imagesJ ← liftE (pyGetD detail "images" (.arr []))
          if !imagesJ.truthy then
            emit (.send (.plain "无法获取图片内容"))
          else do
            let imageItems ←
              match imagesJ with
              | .arr xs => pure xs
              | _ => pyRaise ⟨"TypeError", "object is not iterable"⟩
            let nodes ← liftE (douyinImageNodes desc author imageItems)
            match env.imageSend with
            | .ok _ => emit (.send (send_forward_message env.senderName env.senderId nodes))
            | .error e => pyRaise e
        else pure ()

/-- Protected body of `process_douyin_url` (src/core/douyin.py lines
247-429, everything inside the top-level `try` of the handler). -/
def douyinTryBody (env : DouyinEnv) (douyinCk douyinUrl : String) : M Unit := do
  let douUrl2? ← get_redirect_url douyinUrl env.redirect1
  match douUrl2? with
  | none => emit (.send (.plain "抖音短链接解析失败"))
  | some douUrl2 =>
    if strContains douUrl2 "share/slides" then douyinSlideBranch env douyinUrl
    else douyinContentBranch env douyinCk douUrl2

/-- `process_douyin_url(event, douyin_ck)` (src/core/douyin.py lines
225-432): link match, then the whole pipeline inside one catch-all
try/except that degrades to a plain-text error reply. -/
def process_douyin_url (env : DouyinEnv) (douyinCk : String) : M Unit :=
  match env.msgMatch with
  | none => emit (.send (.plain "无法识别抖音链接"))
  | some douyinUrl =>
    pytry (douyinTryBody env douyinCk douyinUrl) (fun _ => true)
      (fun e => emit (.send (.plain ("处理抖音链接失败: " ++ e.msg))))

/-! ## src/core/bili23.py — handler

`bilibili_api` library calls (`get_info`, `get_online`, `get_room_info`,
`opus.get_info`, `get_download_url`, `get_ai_conclusion`) go through the
excluded third-party library, so only their outcome is modelled (no
`.net` trace entry); HTTP requests issued directly by the source via
httpx emit a `.net` effect. -/

/-- `int(s)` on a Python string. -/
def pyIntStr (s : String) : Except Exc Int :=
  match (pyStrip s).toInt? with
  | some n => .ok n
  | none => .error ⟨"ValueError", "invalid literal for int"⟩

/-- Outcome of one streamed file download. -/
inductive DlOutcome where
  | ok
  | failBeforeWrite (e : Exc)
  | failDuringWrite (e : Exc)
deriving Repr

/-- `download_b_file(url, full_file_name, ...)` (src/core/bili23.py
lines 20-37): streamed GET written chunkwise to the target path; a
failure after the file was opened leaves a partial file. -/
def download_b_file (url path : String) (o : DlOutcome) : M Unit := do
  emit (.net url false)
  match o with
  | .ok => emit (.fwrite path)
  | .failBeforeWrite e => pyRaise e
  | .failDuringWrite e => do emit (.fwrite path); pyRaise e

/-- `asyncio.gather` of two tasks without `return_exceptions`: both
tasks run (both traces are emitted); the exception of the first task takes
precedence, else that of the second. -/
def gather2 (a b : M Unit) : M Unit :=
  match a, b with
  | (t1, .ok _), (t2, r2) => (t1 ++ t2, r2)
  | (t1, .error e), (t2, _) => (t1 ++ t2, .error e)

/-- `merge_file_to_mp4` (src/core/bili23.py lines 40-72): invoke ffmpeg
with `-c copy`.  The source ignores the ffmpeg exit status; `res` models
only an OS-level failure to launch the subprocess. -/
def merge_file_to_mp4 (v a out : String) (res : Except Exc Unit) : M Unit := do
  emit (.mux v a out)
  liftE res

/-- `remove_files` at its handler call sites: best-effort deletion of
each listed path (the returned status dict is only logged; `os.remove`
errors are swallowed inside `remove_files`). -/
def emitRemoves (paths : List String) : M Unit :=
  paths.forM (fun p => emit (.fremove p))

/-- `re.match` of the anchored case-insensitive pattern `BV[1-9a-zA-Z]{10}`, implemented
over characters: case-insensitive `BV`, then exactly ten alphanumerics
excluding `0`. -/
def isBVShorthand (s : String) : Bool :=
  match s.data with
  | c1 :: c2 :: rest =>
    (c1 == 'B' || c1 == 'b') && (c2 == 'V' || c2 == 'v') &&
    rest.length == 10 &&
    rest.all (fun c => (c.isDigit && c != '0') || c.isAlpha)
  | _ => false

/-- Per-run environment of `process_bilibili_url`: regex-match oracles
(one per `re.search` pattern, each standing for the matched group) and
outcomes of the external calls, in program order. -/
structure BiliEnv where
  message : String
  bShortMatch : String → Option String
  shortResolve : Except Exc String
  dynamicIdMatch : String → Option String
  opusInfo : Except Exc JVal
  roomIdMatch : String → Option String
  roomInfo : Except Exc JVal
  cvMatch : String → Option String
  articleInfo : Except Exc JVal
  fidMatch : String → Option String
  urlRegMatch : String → Option String
  videoIdMatch : String → Option String
  videoInfo : Except Exc JVal
  hasQuery : Bool
  pParam : Option String
  online : Except Exc JVal
  streams : Except Exc (String × String)
  cwd : String
  dlVideo : DlOutcome
  dlAudio : DlOutcome
  mergeRes : Except Exc Unit
  aiRes : Except Exc JVal

/-- Short-link resolution step (src/core/bili23.py lines 118-130):
returns `none` when the handler already replied with the short-link
error and stopped.  Only `TypeError` and `httpx.RequestError` (its
subclasses are modelled under the class name `RequestError`) are
caught. -/
def biliResolveShort (env : BiliEnv) (url : String) : M (Option String) :=
  pytry
    (do
      match env.bShortMatch (url.replace "\\" "") with
      | none => do
        emit (.send (.plain "错误：B站短链接解析失败。"))
        pure none
      | some bShortUrl => do
        emit (.net bShortUrl true)
        let resolved ← liftE env.shortResolve
        pure (some resolved))
    (fun e => e.cls == "TypeError" || e.cls == "RequestError")
    (fun _ => do
      emit (.send (.plain "错误：B站短链接解析失败。"))
      pure none)

/-- `desc` extraction of the dynamic branch (src/core/bili23.py lines
152-160). -/
def biliDynDesc (info : JVal) : Except Exc JVal := do
  let c1 ← (do
    let h ← pyIn "desc" info
    if !h then pure false
    else do
      let d ← pyGetItem info "desc"
      if !d.isObj then pure false else pyIn "text" d)
  if c1 then do
    let d ← pyGetItem info "desc"
    pyGetItem d "text"
  else do
    let c2 ← (do
      let h ← pyIn "item" info
      if !h then pure false
      else do
        let it ← pyGetItem info "item"
        if !it.isObj then pure false else pyIn "description" it)
    if c2 then do
      let it ← pyGetItem info "item"
      pyGetItem it "description"
    else pure (.str "")

/-- `user_name` extraction of the dynamic branch (src/core/bili23.py
lines 162-168). -/
def biliDynUserName (info : JVal) : Except Exc JVal := do
  let c1 ← (do
    let h ← pyIn "user" info
    if !h then pure false
    else do
      let u ← pyGetItem info "user"
      if !u.isObj then pure false else pyIn "name" u)
  if c1 then do
    let u ← pyGetItem info "user"
    pyGetItem u "name"
  else do
    let c2 ← (do
      let h ← pyIn "card" info
      if !h then pure false
      else do
        let cd ← pyGetItem info "card"
        if !cd.isObj then pure false else pyIn "card" cd)
    if c2 then do
      let cd ← pyGetItem info "card"
      let card ← pyGetItem cd "card"
      let inner ← (do
        if !card.isObj then pure false
        else do
          let h ← pyIn "user" card
          if !h then pure false
          else do
            let u ← pyGetItem card "user"
            if !u.isObj then pure false else pyIn "name" u)
      if inner then do
        let u ← pyGetItem card "user"
        pyGetItem u "name"
      else pure (.str "未知UP主")
    else pure (.str "未知UP主")

/-- One pass of the picture-collection loop (src/core/bili23.py lines
175-177 and 180-182). -/
def biliDynPicsLoop (xs : List JVal) : Except Exc (List JVal) :=
  xs.foldlM (fun acc p => do
    if p.isObj then do
      let h ← pyIn "img_src" p
      if h then do
        let v ← pyGetItem p "img_src"
        pure (acc ++ [v])
      else pure acc
    else pure acc) ([] : List JVal)

/-- `pics` extraction of the dynamic branch (src/core/bili23.py lines
170-182); the `elif` arm iterates the `pictures` value of the `item` dict
without a list check, so a non-list raises TypeError into the catch-all
of the branch. -/
def biliDynPics (info : JVal) : Except Exc (List JVal) := do
  if !info.isObj then pure []
  else do
    let c1 ← (do
      let h ← pyIn "pictures" info
      if !h then pure false
      else do
        let ps ← pyGetItem info "pictures"
        pure ps.isArr)
    if c1 then do
      let ps ← pyGetItem info "pictures"
      match ps with
      | .arr xs => biliDynPicsLoop xs
      | _ => pure []
    else do
      let c2 ← (do
        let h ← pyIn "item" info
        if !h then pure false
        else do
          let it ← pyGetItem info "item"
          if !it.isObj then pure false else pyIn "pictures" it)
      if c2 then do
        let it ← pyGetItem info "item"
        let ps ← pyGetItem it "pictures"
        match ps with
        | .arr xs => biliDynPicsLoop xs
        | _ => .error ⟨"TypeError", "object is not iterable"⟩
      else pure []

/-- Dynamic branch (src/core/bili23.py lines 133-194), wrapped in its
own catch-all. -/
def biliDynamicBranch (env : BiliEnv) (url : String) : M Unit :=
  pytry
    (do
      let url2 := if strContains url "?" then strBeforeChar url '?' else url
      match env.dynamicIdMatch url2 with
      | none => emit (.send (.plain "无法识别动态ID。"))
      | some idStr => do
        let _dynamicId ← liftE (pyIntStr idStr)
        let dynamicInfo ←
          pytry (liftE env.opusInfo) (fun e => e.cls == "AttributeError")
            (fun _ => pure (.obj []))
        let descJ ← liftE (biliDynDesc dynamicInfo)
        let userJ ← liftE (biliDynUserName dynamicInfo)
        let pics ← liftE (biliDynPics dynamicInfo)
        let userName := pyStr userJ
        let desc := pyStr descJ
        let head := MsgComp.plain s!"识别到B站动态 (来自: {userName}):\n{desc}"
        let chain :=
          if pics.isEmpty then [head]
          else [head, MsgComp.plain "\n附带图片如下："] ++
            (pics.take 9).map (fun p => MsgComp.imageURL (pyStr p))
        emit (.send (.chain chain)))
    (fun _ => true)
    (fun e => emit (.send (.plain ("B站动态解析失败: " ++ e.msg))))

/-- Live-room branch (src/core/bili23.py lines 196-216). -/
def biliLiveBranch (env : BiliEnv) (url : String) : M Unit :=
  pytry
    (do
      let base := strBeforeChar url '?'
      match env.roomIdMatch base with
      | none => emit (.send (.plain "无法识别直播间ID。"))
      | some roomIdStr => do
        let _roomId ← liftE (pyIntStr roomIdStr)
        let roomResp ← liftE env.roomInfo
        let roomInfo ← liftE (pyGetItem roomResp "room_info")
        let title ← liftE (pyGetItem roomInfo "title")
        let cover ← liftE (pyGetItem roomInfo "cover")
        let keyframe ← liftE (pyGetItem roomInfo "keyframe")
        emit (.send (.chain [.plain s!"识别：哔哩哔哩直播\n标题：{pyStr title}",
          .imageURL (pyStr cover), .imageURL (pyStr keyframe)])))
    (fun _ => true)
    (fun e => emit (.send (.plain ("B站直播间解析失败: " ++ e.msg))))

/-- Article branch (src/core/bili23.py lines 219-235). -/
def biliArticleBranch (env : BiliEnv) (url : String) : M Unit :=
  pytry
    (do
      match env.cvMatch url with
      | none => emit (.send (.plain "无法识别专栏ID。"))
      | some readId => do
        let _readId ← liftE (pyIntStr readId)
        let content ← liftE env.articleInfo
        let title ← liftE (pyGetD content "title" (.str "未知标题"))
        emit (.send (.plain s!"识别：哔哩哔哩专栏《{pyStr title}》")))
    (fun _ => true)
    (fun e => emit (.send (.plain ("B站专栏解析失败: " ++ e.msg))))

/-- Favourites branch (src/core/bili23.py lines 238-250): recognises the
collection id but never enumerates its contents. -/
def biliFavlistBranch (env : BiliEnv) (url : String) : M Unit :=
  pytry
    (do
      match env.fidMatch url with
      | none => emit (.send (.plain "无法识别收藏夹ID。"))
      | some favId =>
        emit (.send (.plain s!"识别到B站收藏夹ID: {favId}，但需要实现获取收藏夹内容的功能。")))
    (fun _ => true)
    (fun e => emit (.send (.plain ("B站收藏夹解析失败: " ++ e.msg ++ " (可能需要登录凭据)"))))

/-- Video branch (src/core/bili23.py lines 260-342).  Unlike the other
branches it has NO enclosing try/except: only the download/merge block
carries a try/finally (cleanup), and the trailing AI-summary step its
own swallowing catch-all. -/
def biliVideoSection (env : BiliEnv) (credential : Bool) (maximum : Int)
    (url : String) : M Unit := do
  match env.videoIdMatch url with
  | none => emit (.send (.plain "无法从链接中提取有效的视频ID。"))
  | some videoId => do
    let videoInfo ← liftE env.videoInfo
    match videoInfo with
    | .null => emit (.send (.plain "识别：B站，出错，无法获取数据！"))
    | _ => do
      let titleJ ← liftE (pyGetItem videoInfo "title")
      let coverJ ← liftE (pyGetItem videoInfo "pic")
      let descJ ← liftE (pyGetItem videoInfo "desc")
      let vd0 ← liftE (pyGetItem videoInfo "duration")
      let hasPages ← liftE (pyIn "pages" videoInfo)
      let pageAndDur ←
        if hasPages then do
          let pageNum ←
            if env.hasQuery then
              match env.pParam with
              | none => pure (0 : Int)
              | some s => do
                let n ← liftE (pyIntStr s)
                pure (n - 1)
            else pure (0 : Int)
          let pages ← liftE (pyGetItem videoInfo "pages")
          let page ← liftE (pyIndex pages pageNum)
          let hasDur ← liftE (pyIn "duration" page)
          if hasDur then do
            let dflt ← liftE (pyGetD videoInfo "duration" .null)
            let d ← liftE (pyGetD page "duration" dflt)
            pure (pageNum, d)
          else do
            let d ← liftE (pyGetD videoInfo "duration" (.num 0))
            pure (pageNum, d)
        else pure ((0 : Int), vd0)
      let pageNum := pageAndDur.1
      let videoDuration := pageAndDur.2
      let videoTitle ←
        match titleJ with
        | .str s => pure (delete_boring_characters s)
        | _ => pyRaise ⟨"TypeError", "expected string or bytes-like object"⟩
      let onlineJ ← liftE env.online
      let onlineTotal ← liftE (pyGetItem onlineJ "total")
      let onlineCount ← liftE (pyGetItem onlineJ "count")
      let onlineStr := s!"🏄‍♂️ 总共 {pyStr onlineTotal} 人在观看，{pyStr onlineCount} 人在网页端观看"
      let dur ←
        match videoDuration with
        | .num d => pure d
        | _ => pyRaise ⟨"TypeError", "unorderable types"⟩
      let info ← liftE (extra_bili_info videoInfo)
      emit (.send (biliVideoReply (pyStr coverJ) videoTitle info (pyStr descJ)
        onlineStr dur maximum))
      let st ← liftE env.streams
      let downloadPath := env.cwd ++ "/data/bilibili_cache/" ++ videoId
      let vPath := downloadPath ++ "-video.m4s"
      let aPath := downloadPath ++ "-audio.m4s"
      let outPath := downloadPath ++ ".mp4"
      pyfinally
        (do
          gather2 (download_b_file st.1 vPath env.dlVideo)
            (download_b_file st.2 aPath env.dlAudio)
          merge_file_to_mp4 vPath aPath outPath env.mergeRes)
        (emitRemoves [vPath, aPath])
      emit (.send (.chain [.videoFS outPath]))
      if credential then
        pytry
          (do
            let pages ← liftE (pyGetItem videoInfo "pages")
            let page ← liftE (pyIndex pages pageNum)
            let _cid ← liftE (pyGetItem page "cid")
            let ai ← liftE env.aiRes
            let summary ← liftE (pyGetD ai "summary" .null)
            if ai.truthy && summary.truthy then do
              let s2 ← liftE (pyGetItem ai "summary")
              emit (.send (.plain ("【Bilibili AI 总结】\n" ++ pyStr s2)))
            else pure ())
          (fun _ => true) (fun _ => pure ())
      else pure ()

/-- `process_bilibili_url(event, credential, video_duration_maximum)`
(src/core/bili23.py lines 105-342): URL normalisation, short-link
resolution, then the URL-type dispatch.  Every branch except the video
branch carries its own catch-all try/except. -/
def process_bilibili_url (env : BiliEnv) (credential : Bool)
    (videoDurationMaximum : Int) : M Unit := do
  let url0 := pyStrip env.message
  let url1 := if isBVShorthand url0 then "https://www.bilibili.com/video/" ++ url0 else url0
  let urlRes ←
    if strContains url1 "b23.tv" || strContains url1 "bili2233.cn" then
      biliResolveShort env url1
    else pure (some url1)
  match urlRes with
  | none => pure ()
  | some url => do
    if (strContains url "t.bilibili.com" || strContains url "/opus/") && credential then
      biliDynamicBranch env url
    else if strContains url "live.bilibili.com" then
      biliLiveBranch env url
    else if strContains url "/read/cv" then
      biliArticleBranch env url
    else if strContains url "favlist" && credential then
      biliFavlistBranch env url
    else if !(strContains url "video/av") && !(strContains url "video/BV") then
      match env.urlRegMatch url with
      | some matched => emit (.send (.plain s!"已识别链接，但暂不支持解析此类型：{matched}"))
      | none => pure ()
    else
      biliVideoSection env credential videoDurationMaximum url

/-! ## src/core/xhs.py — handler -/

/-- `XHS_REQ_LINK` (src/core/xhs.py line 19). -/
def XHS_REQ_LINK : String := "https://www.xiaohongshu.com/explore/"

/-- `TEMP_DIR` (src/core/xhs.py line 27); the absolute data root derived
from `__file__` is abstracted to the directory name. -/
def TEMP_DIR : String := "temp"

/-- Temporary image path `os.path.join(TEMP_DIR, f"xhs_{xhs_id}_{index}.jpg")`
(src/core/xhs.py line 364). -/
def xhsTempPath (noteId : String) (index : Nat) : String :=
  TEMP_DIR ++ "/xhs_" ++ noteId ++ "_" ++ toString index ++ ".jpg"

/-- `download_img(url, path, session)` (src/core/xhs.py lines 38-58): no
internal try/except — a failure RAISES out of the task; a failure after
the file was opened leaves a partial file on disk. -/
def download_img (url path : String) (o : DlOutcome) : M String := do
  emit (.net url true)
  match o with
  | .ok => do emit (.fwrite path); pure path
  | .failBeforeWrite e => pyRaise e
  | .failDuringWrite e => do emit (.fwrite path); pyRaise e

/-- `download_video(url)` (src/core/xhs.py lines 60-79): streams into a
freshly named temp file; no internal try/except. -/
def download_video (url path : String) (o : DlOutcome) : M String := do
  emit (.net url true)
  match o with
  | .ok => do emit (.fwrite path); pure path
  | .failBeforeWrite e => pyRaise e
  | .failDuringWrite e => do emit (.fwrite path); pyRaise e

/-- `asyncio.gather` over a task list without `return_exceptions`: all
task traces are emitted; the exception of the first failing task propagates,
otherwise the results are returned in task order. -/
def gatherList : List (M String) → M (List String)
  | [] => ([], .ok [])
  | t :: rest =>
    match t, gatherList rest with
    | (tr, .ok p), (tr2, .ok ps) => (tr ++ tr2, .ok (p :: ps))
    | (tr, .ok _), (tr2, .error e) => (tr ++ tr2, .error e)
    | (tr, .error e), (tr2, _) => (tr ++ tr2, .error e)

/-- `extract_note_info(note_data)` (src/core/xhs.py lines 136-209). -/
def extract_note_info (noteData : JVal) : Except Exc JVal := do
  let liked ← pyGetD noteData "liked" (.bool false)
  let likeCount ← pyGetD noteData "likeCount" (.num 0)
  let collected ← pyGetD noteData "collected" (.bool false)
  let collectCount ← pyGetD noteData "collectCount" (.num 0)
  let commentCount ← pyGetD noteData "commentCount" (.num 0)
  let shareCount ← pyGetD noteData "shareCount" (.num 0)
  let shareInfo ← pyGetD noteData "shareInfo" (.obj [])
  let noteId ← pyGetD shareInfo "noteId" (.str "")
  let noteType ← pyGetD shareInfo "type" (.str "normal")
  let title ← pyGetD shareInfo "title" (.str "无标题")
  let location ← pyGetD shareInfo "location" (.str "")
  let timeStamp ← pyGetD shareInfo "time" (.num 0)
  let userInfo ← pyGetD shareInfo "user" (.obj [])
  let userId ← pyGetD userInfo "userId" (.str "")
  let nickname ← pyGetD userInfo "nickname" (.str "未知作者")
  let avatar ← pyGetD userInfo "avatar" (.str "")
  let imgListJ ← pyGetD noteData "imageList" (.arr [])
  let imageList ←
    match imgListJ with
    | .arr xs =>
      xs.foldlM (fun acc img => do
        let h ← pyIn "urlDefault" img
        if h then do
          let u ← pyGetItem img "urlDefault"
          if u.truthy then do
            let w ← pyGetD img "width" (.num 0)
            let hgt ← pyGetD img "height" (.num 0)
            pure (acc ++ [JVal.obj [("url", u), ("width", w), ("height", hgt)]])
          else pure acc
        else pure acc) ([] : List JVal)
    | _ => pure []
  let videoInfo ←
    if pyEqStr noteType "video" then do
      let hv ← pyIn "video" noteData
      if hv then do
        let video ← pyGetD noteData "video" (.obj [])
        let vurl ← pyGetD video "url" (.str "")
        let coverO ← pyGetD video "cover" (.obj [])
        let coverUrl ← pyGetD coverO "url" (.str "")
        pure (JVal.obj [("url", vurl), ("cover", coverUrl)])
      else pure (JVal.obj [])
    else pure (JVal.obj [])
  let desc ← pyGetD noteData "desc" (.str "")
  pure (.obj [
    ("note_id", noteId), ("type", noteType), ("title", title),
    ("desc", desc), ("location", location), ("time", timeStamp),
    ("user", .obj [("user_id", userId), ("nickname", nickname), ("avatar", avatar)]),
    ("stats", .obj [("liked", liked), ("like_count", likeCount),
      ("collected", collected), ("collect_count", collectCount),
      ("comment_count", commentCount), ("share_count", shareCount)]),
    ("images", .arr imageList), ("video", videoInfo)])

/-- Per-image nodes of the xhs forwarded bundle (src/core/xhs.py lines
407-411): caption `第 i/N 张` then the local image, in download order. -/
def xhsImageNodes (imagePaths : List String) : List (List MsgComp) :=
  imagePaths.enum.map (fun ip =>
    [MsgComp.plain s!"第 {ip.1 + 1}/{imagePaths.length} 张", MsgComp.imageFS ip.2])

/-- Header nodes of the xhs forwarded bundle (src/core/xhs.py lines
376-404): title/author, optional description, optional location, stats,
optional publication time. -/
def xhsBundleHeader (noteTitle authorName : String) (descJ locationJ : JVal)
    (statsText : String) (timeStr : Option String) : List (List MsgComp) :=
  [[MsgComp.plain s!"小红书 | {noteTitle}\n作者: {authorName}"]] ++
  (if descJ.truthy then [[MsgComp.plain ("描述: " ++ pyStr descJ)]] else []) ++
  (if locationJ.truthy then [[MsgComp.plain ("位置: " ++ pyStr locationJ)]] else []) ++
  [[MsgComp.plain statsText]] ++
  (match timeStr with
   | some t => [[MsgComp.plain ("发布时间: " ++ t)]]
   | none => [])

/-- Per-run environment of `process_xiaohongshu_url`: regex-match and
query-parameter oracles, cache store and clock, outcomes of the external
calls, and the sender identity.  `jsonParse` stands for `json.loads`
after the `undefined → null` normalisation; `formatTime t` stands for
`time.strftime("%Y-%m-%d %H:%M", time.localtime(t/1000))`. -/
structure XhsEnv where
  urlMatch : Option String
  shortResolve : Except Exc String
  idExplore : String → Option String
  idDiscovery : String → Option String
  idNoteParam : String → Option String
  now : Int
  cacheFs : CacheFS
  xsecSource : Option String
  xsecToken : Option String
  fetchResp : Except Exc String
  initialStateMatch : String → Option String
  jsonParse : String → Except Exc JVal
  cacheWriteOk : Bool
  formatTime : Int → String
  imgDl : Nat → DlOutcome
  xhsSend : Except Exc Unit
  videoDl : DlOutcome
  videoPath : String
  senderName : String
  senderId : String

/-- Fetch-and-parse step of `process_xiaohongshu_url` on a cache miss
(src/core/xhs.py lines 270-308): returns `none` when the handler has
already replied with an error and stopped. -/
def xhsFetchAndParse (env : XhsEnv) (xhsId : String) : M (Option JVal) := do
  let xsecSource := env.xsecSource.getD "pc_feed"
  let xsecToken := optStr env.xsecToken
  let fetchUrl := XHS_REQ_LINK ++ xhsId ++ "?xsec_source=" ++ xsecSource ++
    "&xsec_token=" ++ xsecToken
  let html? ←
    pytry
      (do
        emit (.net fetchUrl false)
        let h ← liftE env.fetchResp
        pure (some h))
      (fun _ => true)
      (fun e => do
        emit (.send (.plain ("请求小红书内容失败: " ++ e.msg)))
        pure none)
  match html? with
  | none => pure none
  | some html =>
    pytry
      (do
        match env.initialStateMatch html with
        | none => do
          emit (.send (.plain "无法解析小红书内容，Cookie可能已失效"))
          pure none
        | some jsonStr0 => do
          let jsonStr := jsonStr0.replace "undefined" "null"
          let responseJson ← liftE (env.jsonParse jsonStr)
          let note ← liftE (pyGetItem responseJson "note")
          let detailMap ← liftE (pyGetItem note "noteDetailMap")
          let entry ← liftE (pyGetItem detailMap xhsId)
          let rawNote ← liftE (pyGetItem entry "note")
          let noteData ← liftE (extract_note_info rawNote)
          let _fs2 := save_to_cache env.cacheWriteOk env.now env.cacheFs xhsId noteData
          emit (.cacheWrite xhsId)
          pure (some noteData))
      (fun _ => true)
      (fun e => do
        emit (.send (.plain ("解析小红书内容失败: " ++ e.msg)))
        pure none)

/-- `process_xiaohongshu_url(event, xhs_ck)` (src/core/xhs.py lines
211-442).  Only the short-link step, the fetch step, the parse step and
the video download carry try/excepts; the image download/send steps do
not. -/
def process_xiaohongshu_url (env : XhsEnv) (xhsCk : String) : M Unit := do
  if xhsCk.isEmpty then
    emit (.send (.plain "无法获取到小红书Cookie，请在配置中设置XHS_CK"))
  else
    match env.urlMatch with
    | none => pure ()
    | some msgUrl0 => do
      let msgUrl? ←
        if strContains msgUrl0 "xhslink" then
          pytry
            (do
              emit (.net msgUrl0 true)
              let u ← liftE env.shortResolve
              pure (some u))
            (fun _ => true)
            (fun e => do
              emit (.send (.plain ("解析小红书链接失败: " ++ e.msg)))
              pure none)
        else pure (some msgUrl0)
      match msgUrl? with
      | none => pure ()
      | some msgUrl => do
        let xhsId? :=
          match env.idExplore msgUrl with
          | some v => some v
          | none =>
            match env.idDiscovery msgUrl with
            | some v => some v
            | none => env.idNoteParam msgUrl
        match xhsId? with
        | none => emit (.send (.plain "无法从链接中提取小红书ID"))
        | some xhsId => do
          emit (.cacheRead xhsId)
          let cachedData := get_from_cache env.now env.cacheFs xhsId 86400
          let noteData? ←
            if cachedData.truthy then pure (some cachedData)
            else xhsFetchAndParse env xhsId
          match noteData? with
          | none => pure ()
          | some noteData =>
            if !noteData.truthy then
              emit (.send (.plain "无法获取小红书内容"))
            else do
              let contentType ← liftE (pyGetD noteData "type" (.str ""))
              let noteTitleJ ← liftE (pyGetD noteData "title" (.str "无标题"))
              let noteDescJ ← liftE (pyGetD noteData "desc" (.str ""))
              let userJ ← liftE (pyGetD noteData "user" (.obj []))
              let authorJ ← liftE (pyGetD userJ "nickname" (.str "未知作者"))
              let locationJ ← liftE (pyGetD noteData "location" (.str ""))
              let noteTitle := pyStr noteTitleJ
              let authorName := pyStr authorJ
              let statsJ ← liftE (pyGetD noteData "stats" (.obj []))
              let likedJ ← liftE (pyGetD statsJ "liked" (.bool false))
              let likedIcon := if likedJ.truthy then "❤️" else "👍"
              let collectedJ ← liftE (pyGetD statsJ "collected" (.bool false))
              let collectedIcon := if collectedJ.truthy then "⭐" else "⭐"
              let likeCount ← liftE (pyGetD statsJ "like_count" (.num 0))
              let commentCount ← liftE (pyGetD statsJ "comment_count" (.num 0))
              let collectCount ← liftE (pyGetD statsJ "collect_count" (.num 0))
              let statsText := s!"{likedIcon} {pyStr likeCount} | 💬 {pyStr commentCount} | {collectedIcon} {pyStr collectCount}"
              let timeIn ← liftE (pyIn "time" noteData)
              let timeStr ←
                if timeIn then do
                  let tv ← liftE (pyGetItem noteData "time")
                  if tv.truthy then
                    match tv with
                    | .num t => pure (some (env.formatTime t))
                    | _ => pyRaise ⟨"TypeError", "unsupported operand type for division"⟩
                  else pure (none : Option String)
                else pure (none : Option String)
              let descPart := if noteDescJ.truthy then "\n描述: " ++ pyStr noteDescJ else ""
              let locPart := if locationJ.truthy then "\n位置: " ++ pyStr locationJ else ""
              let timePart :=
                match timeStr with
                | some t => "\n发布时间: " ++ t
                | none => ""
              let replyText := "小红书解析 | " ++ noteTitle ++ descPart ++
                "\n作者: " ++ authorName ++ locPart ++ "\n" ++ statsText ++ timePart
              emit (.send (.plain replyText))
              if pyEqStr contentType "normal" then do
                let imagesJ ← liftE (pyGetD noteData "images" (.arr []))
                if !imagesJ.truthy then
                  emit (.send (.plain "未找到图片内容"))
                else do
                  let imageItems ←
                    match imagesJ with
                    | .arr xs => pure xs
                    | _ => pyRaise ⟨"TypeError", "object is not iterable"⟩
                  let tasks ← imageItems.enum.foldlM (fun acc ip => do
                    let urlJ ← liftE (pyGetD ip.2 "url" (.str ""))
                    if !urlJ.truthy then pure acc
                    else pure (acc ++ [(ip.1, pyStr urlJ)])) ([] : List (Nat × String))
                  let imagePaths ←
                    if tasks.isEmpty then pure ([] : List String)
                    else gatherList (tasks.map (fun t =>
                      download_img t.2 (xhsTempPath xhsId t.1) (env.imgDl t.1)))
                  if imagePaths.isEmpty then
                    emit (.send (.plain "图片下载失败"))
                  else do
                    let nodes := xhsBundleHeader noteTitle authorName noteDescJ
                      locationJ statsText timeStr ++ xhsImageNodes imagePaths
                    match env.xhsSend with
                    | .ok _ =>
                      emit (.send (send_forward_message env.senderName env.senderId nodes))
                    | .error e => pyRaise e
                    emitRemoves imagePaths
              else if pyEqStr contentType "video" then do
                let videoInfoJ ← liftE (pyGetD noteData "video" (.obj []))
                let videoUrlJ ← liftE (pyGetD videoInfoJ "url" (.str ""))
                if !videoUrlJ.truthy then
                  emit (.send (.plain "无法获取视频链接"))
                else
                  pytry
                    (do
                      let videoPath ← download_video (pyStr videoUrlJ) env.videoPath env.videoDl
                      emit (.send (.chain [.videoFS videoPath]))
                      emitRemoves [videoPath])
                    (fun _ => true)
                    (fun e => emit (.send (.plain ("视频处理失败: " ++ e.msg))))
              else
                emit (.send (.plain ("不支持的内容类型: " ++ pyStr contentType)))

/-! ## Concrete run environments and claim-specific helpers -/

/-- Status recorded by `remove_files` for one path against the initial
filesystem. -/
def removeStatus (env : RemoveEnv) (fs : List String) (p : String) : String :=
  if p ∈ fs then
    match env.removeErr p with
    | none => "remove"
    | some m => "error: " ++ m
  else "don\x27t exist"

def slideEnv0 : SlideEnv where
  xzResp := .ok .null
  redirect2 := .ok ⟨404, none, ""⟩
  slideIdMatch := fun _ => none
  itemListResp := .ok .null

def douyinEnv0 : DouyinEnv where
  msgMatch := none
  redirect1 := .ok ⟨404, none, ""⟩
  slide := slideEnv0
  imgDl := fun _ => .failEarly
  slideSend := .ok ()
  senderName := "user"
  senderId := "10001"
  idMatch := fun _ => none
  xbogus := none
  apiResp := .ok .null
  urlTypeDict := fun _ => none
  imageSend := .ok ()

def biliEnv0 : BiliEnv where
  message := ""
  bShortMatch := fun _ => none
  shortResolve := .ok ""
  dynamicIdMatch := fun _ => none
  opusInfo := .ok (.obj [])
  roomIdMatch := fun _ => none
  roomInfo := .ok (.obj [])
  cvMatch := fun _ => none
  articleInfo := .ok (.obj [])
  fidMatch := fun _ => none
  urlRegMatch := fun _ => none
  videoIdMatch := fun _ => none
  videoInfo := .ok .null
  hasQuery := false
  pParam := none
  online := .ok (.obj [])
  streams := .ok ("", "")
  cwd := ""
  dlVideo := .ok
  dlAudio := .ok
  mergeRes := .ok ()
  aiRes := .ok (.obj [])

def xhsEnv0 : XhsEnv where
  urlMatch := none
  shortResolve := .ok ""
  idExplore := fun _ => none
  idDiscovery := fun _ => none
  idNoteParam := fun _ => none
  now := 0
  cacheFs := fun _ => none
  xsecSource := none
  xsecToken := none
  fetchResp := .ok ""
  initialStateMatch := fun _ => none
  jsonParse := fun _ => .ok .null
  cacheWriteOk := true
  formatTime := fun _ => ""
  imgDl := fun _ => .ok
  xhsSend := .ok ()
  videoDl := .ok
  videoPath := ""
  senderName := "user"
  senderId := "10001"

/-- Environment of a douyin run whose short-link resolution returns
status `st` with no `Location` header. -/
def douyinC3Env (surl : String) (st : Nat) (uurl : String) : DouyinEnv :=
  { douyinEnv0 with msgMatch := some surl, redirect1 := .ok ⟨st, none, uurl⟩ }

def biliVideoUrl : String := "https://www.bilibili.com/video/BV1xx411c7mD"

/-- A bilibili run routed to the video branch whose `v.get_info()` call
raises a network error. -/
def biliC1Env : BiliEnv :=
  { biliEnv0 with
    message := biliVideoUrl
    videoIdMatch := fun _ => some "BV1xx411c7mD"
    videoInfo := .error ⟨"ConnectError", "connection refused"⟩ }

/-- An xhs run with a cookie and a cache hit whose cached `data` is not
a dict, so the `.get` access for `type` raises outside every try block. -/
def xhsC1Env : XhsEnv :=
  { xhsEnv0 with
    urlMatch := some "https://www.xiaohongshu.com/explore/abc123"
    idExplore := fun _ => some "abc123"
    cacheFs := fun id2 =>
      if id2 = "abc123" then some (.obj [("timestamp", .num 0), ("data", .num 5)])
      else none }

/-- A well-formed video-info payload for concrete bilibili runs. -/
def biliVideoInfo : JVal := .obj [
  ("title", .str "t"), ("pic", .str "http://cover"), ("desc", .str "d"),
  ("duration", .num 100),
  ("stat", .obj [("like", .num 1), ("coin", .num 1), ("favorite", .num 1),
    ("share", .num 1), ("view", .num 1), ("danmaku", .num 1), ("reply", .num 1)])]

/-- A bilibili run routed to the video branch, with the two stream
downloads and the merge outcome left as parameters. -/
def biliC2Env (o1 o2 : DlOutcome) (mr : Except Exc Unit) : BiliEnv :=
  { biliEnv0 with
    message := biliVideoUrl
    videoIdMatch := fun _ => some "BV1xx411c7mD"
    videoInfo := .ok biliVideoInfo
    online := .ok (.obj [("total", .num 5), ("count", .num 2)])
    streams := .ok ("http://v.m4s", "http://a.m4s")
    dlVideo := o1
    dlAudio := o2
    mergeRes := mr }

def biliVPath : String := "/data/bilibili_cache/BV1xx411c7mD-video.m4s"

def biliAPath : String := "/data/bilibili_cache/BV1xx411c7mD-audio.m4s"

/-- A cached video note for concrete xhs runs. -/
def xhsC2Note : JVal := .obj [
  ("type", .str "video"), ("title", .str "t"), ("desc", .str ""),
  ("user", .obj [("nickname", .str "a")]), ("location", .str ""),
  ("stats", .obj []),
  ("video", .obj [("url", .str "http://v/video.mp4")])]

def xhsVideoTempPath : String := "temp/xhs_video_1700000000_1234.mp4"

/-- An xhs run serving a cached video note whose download fails after
the local file was opened. -/
def xhsC2Env : XhsEnv :=
  { xhsEnv0 with
    urlMatch := some "https://www.xiaohongshu.com/explore/n1"
    idExplore := fun _ => some "n1"
    cacheFs := fun id2 =>
      if id2 = "n1" then some (.obj [("timestamp", .num 0), ("data", xhsC2Note)])
      else none
    videoDl := .failDuringWrite ⟨"ClientError", "connection reset"⟩
    videoPath := xhsVideoTempPath }

def xhsC2okEnv : XhsEnv := { xhsC2Env with videoDl := .ok }

def DlOutcome.isFail : DlOutcome → Bool
  | .ok => false
  | _ => true

/-- No ffmpeg mux invocation anywhere in a trace. -/
def noMux (t : List Eff) : Bool :=
  t.all (fun e => match e with | .mux _ _ _ => false | _ => true)

/-- A third-party slide payload with the given image entries. -/
def xzSlidePayload (imgs : List JVal) : JVal := .obj [
  ("data", .obj [
    ("jx", .obj [("item_id", .str "123"), ("type", .str "图集")]),
    ("item", .obj [("cover", .str "http://cover"), ("images", .arr imgs),
      ("title", .str "T")]),
    ("author", .obj [("name", .str "A")])])]

/-- A douyin slide run with three images that all download. -/
def douyinC8Env : DouyinEnv :=
  { douyinEnv0 with
    msgMatch := some "https://v.douyin.com/slide1"
    redirect1 := .ok ⟨302, some "https://www.iesdouyin.com/share/slides/7001", "u"⟩
    slide := { slideEnv0 with
      xzResp := .ok (xzSlidePayload [.str "u1", .str "u2", .str "u3"]) }
    imgDl := fun u =>
      if u = "u1" then .saved "p1"
      else if u = "u2" then .saved "p2"
      else .saved "p3" }

/-- A douyin slide run with two images whose second download fails. -/
def douyinC8cEnv : DouyinEnv :=
  { douyinC8Env with
    slide := { slideEnv0 with
      xzResp := .ok (xzSlidePayload [.str "u1", .str "u2"]) }
    imgDl := fun u => if u = "u1" then .saved "p1" else .failEarly }

/-- A direct-link xhs run over an arbitrary base environment. -/
def xhsC9Env (base : XhsEnv) : XhsEnv :=
  { base with
    urlMatch := some "https://www.xiaohongshu.com/explore/n9"
    idExplore := fun _ => some "n9" }

/-- An xhs short-link run: the redirect resolution precedes the cache
lookup. -/
def xhsC9cEnv : XhsEnv :=
  { xhsEnv0 with
    urlMatch := some "http://xhslink.com/a/bc"
    shortResolve := .ok "https://www.xiaohongshu.com/explore/n10"
    idExplore := fun u =>
      if u = "https://www.xiaohongshu.com/explore/n10" then some "n10" else none }

/-! ## Claims C4, C5, C6, C10 -/

/-- Claim C4: a stats counter value of at most 10000 is rendered
unabbreviated; a value strictly above 10000 is rendered in the
abbreviated `X.Y万` form; in particular 10001 renders as `1.0万`. -/
theorem claim_c4_stats_formatter_threshold (v : Int) :
    (v ≤ 10000 → formatStatValue v = toString v) ∧
    (10000 < v → ∃ x y : Nat, y < 10 ∧
      formatStatValue v = toString x ++ "." ++ toString y ++ "万") ∧
    formatStatValue 10001 = "1.0万" := by
  refine ⟨?_, ?_, by decide⟩
  · intro h
    unfold formatStatValue
    rw [if_neg (by omega)]
  · intro h
    refine ⟨roundHalfEven v.natAbs 1000 / 10, roundHalfEven v.natAbs 1000 % 10,
      Nat.mod_lt _ (by norm_num), ?_⟩
    unfold formatStatValue format1f
    rw [if_pos h, if_neg (by omega)]

/-- Witness for claim C4 at the boundary values 10000 and 10001. -/
theorem claim_c4_witness :
    formatStatValue 10000 = "10000" ∧ formatStatValue 10001 = "1.0万" :=
  ⟨(claim_c4_stats_formatter_threshold 10000).1 (by norm_num),
   (claim_c4_stats_formatter_threshold 10001).2.2⟩

/-- Claim C5: with duration `d` and configured maximum `m`, the composed
video reply carries the appended warning line — showing both durations
in minutes by floor division by 60 — exactly when `d > m`; for `d ≤ m`
the reply is the warning-free caption. -/
theorem claim_c5_duration_warning (cover title info desc onlineStr : String)
    (d m : Int) :
    (m < d → biliVideoReply cover title info desc onlineStr d m =
      .chain [.imageURL cover,
        .plain (s!"\n识别：B站，{title}\n{info}\n简介：{desc}\n{onlineStr}\n---------\n"
          ++ biliDurationWarning (d.fdiv 60) (m.fdiv 60))]) ∧
    (d ≤ m → biliVideoReply cover title info desc onlineStr d m =
      .chain [.imageURL cover,
        .plain s!"\n识别：B站，{title}\n{info}\n📝 简介：{desc}\n{onlineStr}"]) := by
  constructor
  · intro h
    unfold biliVideoReply
    rw [if_neg (by omega)]
  · intro h
    unfold biliVideoReply
    rw [if_pos h]

/-- Witness for claim C5 at maximum 600 with durations 601 and 600. -/
theorem claim_c5_witness :
    biliVideoReply "c" "t" "i" "d" "o" 601 600 =
      .chain [.imageURL "c",
        .plain ("\n识别：B站，t\ni\n简介：d\no\n---------\n" ++ biliDurationWarning 10 10)] ∧
    biliVideoReply "c" "t" "i" "d" "o" 600 600 =
      .chain [.imageURL "c", .plain "\n识别：B站，t\ni\n📝 简介：d\no"] :=
  ⟨(claim_c5_duration_warning "c" "t" "i" "d" "o" 601 600).1 (by norm_num),
   (claim_c5_duration_warning "c" "t" "i" "d" "o" 600 600).2 (by norm_num)⟩

/-- Claim C6: writing a record for an id and reading it back within the
freshness window yields the stored structured data; reading after the
window has elapsed yields a miss (`None`), identical to reading an id
that was never cached. -/
theorem claim_c6_cache_roundtrip (fs : CacheFS) (noteId : String) (d : JVal)
    (tw tr maxAge : Int) :
    (tr - tw ≤ maxAge →
      get_from_cache tr (save_to_cache true tw fs noteId d) noteId maxAge = d) ∧
    (maxAge < tr - tw →
      get_from_cache tr (save_to_cache true tw fs noteId d) noteId maxAge = .null) ∧
    get_from_cache tr (fun _ => none) noteId maxAge = .null := by
  refine ⟨?_, ?_, rfl⟩
  · intro h
    simp only [get_from_cache, save_to_cache, if_true]
    change (if tr - tw > maxAge then JVal.null
      else (List.lookup "data" [("timestamp", JVal.num tw), ("data", d)]).getD JVal.null) = d
    rw [if_neg (by omega)]
    rfl
  · intro h
    simp only [get_from_cache, save_to_cache, if_true]
    change (if tr - tw > maxAge then JVal.null
      else (List.lookup "data" [("timestamp", JVal.num tw), ("data", d)]).getD JVal.null) = .null
    rw [if_pos (by omega)]

/-- Witness for claim C6 with the default 86400-second window: a hit at
exactly the window boundary, a miss just past it, and a miss for an
uncached id. -/
theorem claim_c6_witness :
    get_from_cache 86400 (save_to_cache true 0 (fun _ => none) "X" (.str "D")) "X" 86400
      = .str "D" ∧
    get_from_cache 86401 (save_to_cache true 0 (fun _ => none) "X" (.str "D")) "X" 86400
      = .null ∧
    get_from_cache 86401 (fun _ => none) "X" 86400 = .null :=
  ⟨(claim_c6_cache_roundtrip (fun _ => none) "X" (.str "D") 0 86400 86400).1 (by norm_num),
   (claim_c6_cache_roundtrip (fun _ => none) "X" (.str "D") 0 86401 86400).2.1 (by norm_num),
   (claim_c6_cache_roundtrip (fun _ => none) "X" (.str "D") 0 86401 86400).2.2⟩

theorem mem_filter_ne (fs : List String) (p q : String) (h : q ≠ p) :
    (q ∈ fs.filter (fun x => x ≠ p)) ↔ q ∈ fs := by
  simp [List.mem_filter, h]

theorem dictSet_fresh (d : List (String × String)) (k v : String)
    (h : ∀ kv ∈ d, kv.1 ≠ k) : dictSet d k v = d ++ [(k, v)] := by
  unfold dictSet
  rw [if_neg]
  intro hc
  rcases List.any_eq_true.mp hc with ⟨kv, hmem, hk⟩
  exact h kv hmem (eq_of_beq hk)

theorem removeFilesGo_results (env : RemoveEnv) :
    ∀ (paths fs : List String) (results : List (String × String)),
      paths.Nodup → (∀ p ∈ paths, ∀ kv ∈ results, kv.1 ≠ p) →
      (removeFilesGo env fs results paths).1 =
        results ++ paths.map (fun p => (p, removeStatus env fs p))
  | [], fs, results, _, _ => by simp [removeFilesGo]
  | p :: rest, fs, results, hnd, hdisj => by
    rw [List.nodup_cons] at hnd
    obtain ⟨hp_rest, hrest_nd⟩ := hnd
    have hfresh : ∀ kv ∈ results, kv.1 ≠ p := fun kv hkv => hdisj p (by simp) kv hkv
    have hmapc : ∀ (fs2 : List String), (∀ q ∈ rest, (q ∈ fs2) ↔ (q ∈ fs)) →
        rest.map (fun q => (q, removeStatus env fs2 q)) =
        rest.map (fun q => (q, removeStatus env fs q)) := by
      intro fs2 hiff
      apply List.map_congr_left
      intro q hq
      have := hiff q hq
      simp only [removeStatus]
      by_cases hqf : q ∈ fs
      · rw [if_pos (this.mpr hqf), if_pos hqf]
      · rw [if_neg (fun hmem => hqf (this.mp hmem)), if_neg hqf]
    have hdisj2 : ∀ (v : String), ∀ q ∈ rest, ∀ kv ∈ dictSet results p v, kv.1 ≠ q := by
      intro v q hq kv hkv
      rw [dictSet_fresh results p v hfresh] at hkv
      rcases List.mem_append.mp hkv with hkv1 | hkv2
      · exact hdisj q (by simp [hq]) kv hkv1
      · have : kv = (p, v) := by simpa using hkv2
        subst this
        show p ≠ q
        intro hh
        exact hp_rest (hh ▸ hq)
    unfold removeFilesGo
    by_cases hin : p ∈ fs
    · rw [if_pos hin]
      cases herr : env.removeErr p with
      | none =>
        rw [removeFilesGo_results env rest (fs.filter (fun q => q ≠ p))
          (dictSet results p "remove") hrest_nd (hdisj2 "remove")]
        rw [dictSet_fresh results p "remove" hfresh]
        rw [hmapc (fs.filter (fun q => q ≠ p))
          (fun q hq => mem_filter_ne fs p q (fun hh => hp_rest (hh ▸ hq)))]
        simp [removeStatus, hin, herr]
      | some m =>
        rw [removeFilesGo_results env rest fs
          (dictSet results p ("error: " ++ m)) hrest_nd (hdisj2 ("error: " ++ m))]
        rw [dictSet_fresh results p ("error: " ++ m) hfresh]
        simp [removeStatus, hin, herr]
    · rw [if_neg hin]
      rw [removeFilesGo_results env rest fs
        (dictSet results p "don\x27t exist") hrest_nd (hdisj2 "don\x27t exist")]
      rw [dictSet_fresh results p "don\x27t exist" hfresh]
      simp [removeStatus, hin]

theorem removeFilesGo_fs_mono (env : RemoveEnv) :
    ∀ (paths fs : List String) (results : List (String × String)) (q : String),
      q ∉ fs → q ∉ (removeFilesGo env fs results paths).2
  | [], fs, results, q, hq => by simpa [removeFilesGo] using hq
  | p :: rest, fs, results, q, hq => by
    unfold removeFilesGo
    by_cases hin : p ∈ fs
    · rw [if_pos hin]
      cases herr : env.removeErr p with
      | none =>
        exact removeFilesGo_fs_mono env rest (fs.filter (fun x => x ≠ p)) _ q
          (fun hmem => hq (List.mem_of_mem_filter hmem))
      | some m => exact removeFilesGo_fs_mono env rest fs _ q hq
    · rw [if_neg hin]
      exact removeFilesGo_fs_mono env rest fs _ q hq

/-- Claim C10 (amended): on pairwise-distinct paths, `remove_files`
returns (without raising — the model is total, `os.remove` being the
only raising call and wrapped in try/except) the insertion-ordered dict
with exactly one entry per given path: `remove` when the file existed
and deletion succeeded, `error: <msg>` when `os.remove` raised, and
the does-not-exist status when the path was absent; paths absent from the
filesystem stay absent. -/
theorem claim_c10_remove_files_statuses (env : RemoveEnv) (fs paths : List String)
    (hnd : paths.Nodup) :
    (remove_files env fs paths).1 = paths.map (fun p => (p, removeStatus env fs p)) ∧
    (∀ q, q ∉ fs → q ∉ (remove_files env fs paths).2) := by
  constructor
  · have h1 := removeFilesGo_results env paths fs [] hnd
      (by intro p _ kv hkv; cases hkv)
    simpa [remove_files] using h1
  · exact fun q hq => removeFilesGo_fs_mono env paths fs [] q hq

/-- Witness for claim C10: two distinct paths, one existing and one
absent, next to an `os.remove` that raises on a third run. -/
theorem claim_c10_witness :
    (remove_files ⟨fun _ => none⟩ ["a"] ["a", "b"]).1 =
      [("a", "remove"), ("b", "don\x27t exist")] ∧
    "b" ∉ (remove_files ⟨fun _ => none⟩ ["a"] ["a", "b"]).2 := by
  have h := claim_c10_remove_files_statuses ⟨fun _ => none⟩ ["a"] ["a", "b"] (by decide)
  exact ⟨h.1.trans (by decide), h.2 "b" (by decide)⟩

/-- Counterexample for claim C10 as stated: with the duplicated path
list `["a", "a"]` and an existing file `a`, the call deletes `a`, yet
its single status entry is the does-not-exist status — not `remove` although the
file existed and was deleted, and the filesystem is not left unchanged
for a path reported as non-existing. -/
theorem claim_c10_counterexample :
    (remove_files ⟨fun _ => none⟩ ["a"] ["a", "a"]).1 = [("a", "don\x27t exist")] ∧
    (remove_files ⟨fun _ => none⟩ ["a"] ["a", "a"]).2 = [] := by
  decide

/-! ## Base environments for concrete runs -/

/-! ## Claim C3 -/

/-- Claim C3: redirect resolution issues its GET without following
redirects and returns exactly the `Location` header value whenever that
header is present; with no `Location` header and a non-200 status it
returns no URL, and the handler then emits the single short-link-failure
reply and stops. -/
theorem claim_c3_redirect_resolution (st : Nat) (loc uurl surl : String)
    (hst : st ≠ 200) :
    (get_redirect_url surl (.ok ⟨st, some loc, uurl⟩)).run =
      ([.net surl false], .ok (some loc)) ∧
    (get_redirect_url surl (.ok ⟨st, none, uurl⟩)).run =
      ([.net surl false], .ok none) ∧
    (process_douyin_url (douyinC3Env surl st uurl) "ck").run =
      ([.net surl false, .send (.plain "抖音短链接解析失败")], .ok ()) := by
  have hred : (st == 200) = false := by
    simp [Nat.beq_eq_true_eq, hst]
  have h2 : get_redirect_url surl (.ok ⟨st, none, uurl⟩) =
      (([.net surl false], .ok none) : M (Option String)) := by
    show (([.net surl false], .ok (if st == 200 then some uurl else none)) :
      M (Option String)) = ([.net surl false], .ok none)
    rw [hred]
    rfl
  refine ⟨rfl, h2, ?_⟩
  have h3 : douyinTryBody (douyinC3Env surl st uurl) "ck" surl =
      ([.net surl false, .send (.plain "抖音短链接解析失败")], .ok ()) := by
    unfold douyinTryBody
    have : (douyinC3Env surl st uurl).redirect1 = .ok ⟨st, none, uurl⟩ := rfl
    rw [this, h2]
    rfl
  show pytry (douyinTryBody (douyinC3Env surl st uurl) "ck" surl) (fun _ => true)
      (fun e => emit (.send (.plain ("处理抖音链接失败: " ++ e.msg)))) =
    ([.net surl false, .send (.plain "抖音短链接解析失败")], .ok ())
  rw [h3]
  rfl

/-- Witness for claim C3 at status 302 and 404. -/
theorem claim_c3_witness :
    (get_redirect_url "https://v.douyin.com/abc" (.ok ⟨302, some "https://target", "u"⟩)).run =
      ([.net "https://v.douyin.com/abc" false], .ok (some "https://target")) ∧
    (process_douyin_url (douyinC3Env "https://v.douyin.com/abc" 404 "u") "ck").run =
      ([.net "https://v.douyin.com/abc" false, .send (.plain "抖音短链接解析失败")], .ok ()) :=
  ⟨(claim_c3_redirect_resolution 302 "https://target" "u" "https://v.douyin.com/abc"
      (by norm_num)).1,
   (claim_c3_redirect_resolution 404 "" "u" "https://v.douyin.com/abc"
      (by norm_num)).2.2⟩

/-! ## Claim C1 -/

/-- A catch-all `try/except` whose handler returns normally yields a
normal outcome whatever the body does. -/
theorem pytry_catchall_ok (handler : Exc → M Unit)
    (hh : ∀ e, (handler e).2 = .ok ()) :
    ∀ body : M Unit, (pytry body (fun _ => true) handler).2 = .ok ()
  | (t, .ok a) => rfl
  | (t, .error e) => by
    have h3 := hh e
    show ((match handler e with
      | (t2, r) => ((t ++ t2, r) : List Eff × Except Exc Unit))).2 = .ok ()
    rcases hh2 : handler e with ⟨t2, r2⟩
    rw [hh2] at h3
    exact h3

/-- Counterexample for claim C1: in the video branch of
`process_bilibili_url` (src/core/bili23.py line 268), `v.get_info()` is not inside any
try/except, so its exception propagates out of the handler instead of
degrading to a text reply. -/
theorem claim_c1_counterexample :
    (process_bilibili_url biliC1Env true 600).result =
      .error ⟨"ConnectError", "connection refused"⟩ ∧
    (process_bilibili_url biliC1Env true 600).trace = [] := ⟨rfl, rfl⟩

/-- Claim C1 (amended): `process_douyin_url` catches every exception at
its top level and never propagates; `process_bilibili_url` and
`process_xiaohongshu_url` catch exceptions only inside per-branch try
blocks, and exceptions raised in the bilibili video branch or in the
xiaohongshu reply-composition path propagate out of the handler. -/
theorem claim_c1_exception_policy :
    (∀ (env : DouyinEnv) (ck : String), (process_douyin_url env ck).result = .ok ()) ∧
    (process_bilibili_url biliC1Env true 600).result =
      .error ⟨"ConnectError", "connection refused"⟩ ∧
    (process_xiaohongshu_url xhsC1Env "ck").result =
      .error ⟨"AttributeError", "object has no attribute get"⟩ := by
  refine ⟨?_, rfl, rfl⟩
  intro env ck
  unfold process_douyin_url
  cases hm : env.msgMatch with
  | none => rfl
  | some u => exact pytry_catchall_ok _ (fun e => rfl) (douyinTryBody env ck u)

/-! ## Claims C2 and C7 -/

/-- Counterexample for claim C2: the xiaohongshu video path catches a
mid-download failure (src/core/xhs.py line 439) and finishes its reply
sequence normally, but the partially written temp file is never removed
and remains on disk. -/
theorem claim_c2_counterexample :
    (process_xiaohongshu_url xhsC2Env "ck").result = .ok () ∧
    remainingFiles (process_xiaohongshu_url xhsC2Env "ck").trace =
      [xhsVideoTempPath] := ⟨rfl, rfl⟩

/-- Claim C7: whenever either of the two bilibili stream downloads
fails, the joint operation fails as a whole — the muxer is never
invoked, the overall run ends abnormally — and the cleanup of both
temporary `.m4s` files still runs. -/
theorem claim_c7_gather_failure (o1 o2 : DlOutcome) (mr : Except Exc Unit)
    (h : (o1.isFail || o2.isFail) = true) :
    noMux (process_bilibili_url (biliC2Env o1 o2 mr) true 600).trace = true ∧
    (process_bilibili_url (biliC2Env o1 o2 mr) true 600).trace.contains
      (Eff.fremove biliVPath) = true ∧
    (process_bilibili_url (biliC2Env o1 o2 mr) true 600).trace.contains
      (Eff.fremove biliAPath) = true ∧
    (process_bilibili_url (biliC2Env o1 o2 mr) true 600).result ≠ .ok () := by
  cases o1 with
  | ok =>
    cases o2 with
    | ok => simp [DlOutcome.isFail] at h
    | failBeforeWrite e =>
      exact ⟨rfl, rfl, rfl, fun hh => Except.noConfusion hh⟩
    | failDuringWrite e =>
      exact ⟨rfl, rfl, rfl, fun hh => Except.noConfusion hh⟩
  | failBeforeWrite e =>
    cases o2 with
    | ok => exact ⟨rfl, rfl, rfl, fun hh => Except.noConfusion hh⟩
    | failBeforeWrite e2 => exact ⟨rfl, rfl, rfl, fun hh => Except.noConfusion hh⟩
    | failDuringWrite e2 => exact ⟨rfl, rfl, rfl, fun hh => Except.noConfusion hh⟩
  | failDuringWrite e =>
    cases o2 with
    | ok => exact ⟨rfl, rfl, rfl, fun hh => Except.noConfusion hh⟩
    | failBeforeWrite e2 => exact ⟨rfl, rfl, rfl, fun hh => Except.noConfusion hh⟩
    | failDuringWrite e2 => exact ⟨rfl, rfl, rfl, fun hh => Except.noConfusion hh⟩

/-- Witness for claim C7: the video stream download dies mid-write, the
audio download succeeds. -/
theorem claim_c7_witness :
    noMux (process_bilibili_url
      (biliC2Env (.failDuringWrite ⟨"HTTPError", "500"⟩) .ok (.ok ())) true 600).trace = true ∧
    (process_bilibili_url
      (biliC2Env (.failDuringWrite ⟨"HTTPError", "500"⟩) .ok (.ok ())) true 600).trace.contains
      (Eff.fremove biliVPath) = true ∧
    (process_bilibili_url
      (biliC2Env (.failDuringWrite ⟨"HTTPError", "500"⟩) .ok (.ok ())) true 600).trace.contains
      (Eff.fremove biliAPath) = true ∧
    (process_bilibili_url
      (biliC2Env (.failDuringWrite ⟨"HTTPError", "500"⟩) .ok (.ok ())) true 600).result ≠ .ok () :=
  claim_c7_gather_failure (.failDuringWrite ⟨"HTTPError", "500"⟩) .ok (.ok ()) (by decide)

/-! ## Claim C8 (and the douyin conjunct of C2) -/

theorem slideNodes_filterMap_saved (N : Nat) :
    ∀ (k : Nat) (paths : List String),
      List.filterMap (fun ip =>
        match ip.2 with
        | some p =>
          some [MsgComp.imageFS p, MsgComp.plain s!"\n第 {ip.1 + 1}/{N} 张"]
        | none => none) (List.enumFrom k (paths.map some)) =
      (List.enumFrom k paths).map (fun ip =>
        [MsgComp.imageFS ip.2, MsgComp.plain s!"\n第 {ip.1 + 1}/{N} 张"])
  | _, [] => rfl
  | k, p :: rest =>
    congrArg (List.cons _) (slideNodes_filterMap_saved N (k + 1) rest)

/-- When every image of a slide post downloads successfully, the bundle
after the intro node lists the images in source order with caption
position `i + 1` out of the full count. -/
theorem douyinSlideNodes_all_saved (title author : String) (n : Nat)
    (paths : List String) :
    douyinSlideNodes title author n (paths.map some) =
      [MsgComp.plain (s!"抖音 | {title}\n作者: {author}\n\n图集共 {n} 张图片")] ::
      (List.enumFrom 0 paths).map (fun ip =>
        [MsgComp.imageFS ip.2,
         MsgComp.plain s!"\n第 {ip.1 + 1}/{paths.length} 张"]) := by
  unfold douyinSlideNodes
  congr 1
  have hlen : (paths.map some).length = paths.length := List.length_map _ _
  simp only [List.enum, hlen]
  exact slideNodes_filterMap_saved paths.length 0 paths

/-- Claim C8 (amended): when every image is available, the forwarded
bundle preserves source order with captions `1/N` … `N/N` (douyin slide
bundles after the intro node, xhs bundles per index); the concrete
all-success douyin run sends exactly that bundle with captions `1/3`,
`2/3`, `3/3`.  When a download fails, the failed item is dropped while
its source position and the total stay in the caption (see the
counterexample). -/
theorem claim_c8_bundle_order (title author : String) (paths : List String)
    (k : Nat) :
    douyinSlideNodes title author paths.length (paths.map some) =
      [MsgComp.plain (s!"抖音 | {title}\n作者: {author}\n\n图集共 {paths.length} 张图片")] ::
      (List.enumFrom 0 paths).map (fun ip =>
        [MsgComp.imageFS ip.2,
         MsgComp.plain s!"\n第 {ip.1 + 1}/{paths.length} 张"]) ∧
    (xhsImageNodes paths).get? k = (paths.get? k).map (fun p =>
      [MsgComp.plain s!"第 {k + 1}/{paths.length} 张", MsgComp.imageFS p]) ∧
    (process_douyin_url douyinC8Env "ck").trace.contains
      (Eff.send (send_forward_message "user" "10001"
        (douyinSlideNodes "T" "A" 3 [some "p1", some "p2", some "p3"]))) = true ∧
    douyinSlideNodes "T" "A" 3 [some "p1", some "p2", some "p3"] =
      [[.plain "抖音 | T\n作者: A\n\n图集共 3 张图片"],
       [.imageFS "p1", .plain "\n第 1/3 张"],
       [.imageFS "p2", .plain "\n第 2/3 张"],
       [.imageFS "p3", .plain "\n第 3/3 张"]] := by
  refine ⟨douyinSlideNodes_all_saved title author paths.length paths, ?_, rfl, by decide⟩
  unfold xhsImageNodes
  rw [List.get?_map, List.get?_enum]
  cases paths.get? k <;> rfl

/-- Counterexample for claim C8 as stated: with source images
`[u1, u2]` and the second download failing, the composed bundle holds a
single image node captioned `1/2` and no node captioned `2/2`, so the
captions do not read `1/2`, `2/2`. -/
theorem claim_c8_counterexample :
    douyinSlideNodes "T" "A" 2 [some "p1", none] =
      [[.plain "抖音 | T\n作者: A\n\n图集共 2 张图片"],
       [.imageFS "p1", .plain "\n第 1/2 张"]] ∧
    (process_douyin_url douyinC8cEnv "ck").trace.contains
      (Eff.send (send_forward_message "user" "10001"
        (douyinSlideNodes "T" "A" 2 [some "p1", none]))) = true ∧
    (douyinSlideNodes "T" "A" 2 [some "p1", none]).all
      (fun node => !(node.contains (MsgComp.plain "\n第 2/2 张"))) = true :=
  ⟨by decide, rfl, by decide⟩

/-- Claim C2 (amended): the bilibili try/finally removes both downloaded
`.m4s` stream files whatever the download and merge outcomes; the
xiaohongshu and douyin paths remove their downloaded files after the
send step — but a download that fails after opening its file leaves the
partial file behind (see the counterexample). -/
theorem claim_c2_cleanup :
    (∀ (o1 o2 : DlOutcome) (mr : Except Exc Unit),
      remainingFiles (process_bilibili_url (biliC2Env o1 o2 mr) true 600).trace = []) ∧
    remainingFiles (process_xiaohongshu_url xhsC2okEnv "ck").trace = [] ∧
    remainingFiles (process_douyin_url douyinC8Env "ck").trace = [] := by
  refine ⟨?_, rfl, rfl⟩
  intro o1 o2 mr
  cases o1 <;> cases o2 <;> cases mr <;> rfl

/-! ## Claim C9 -/

theorem M.pure_bind {α β : Type} (a : α) (k : α → M β) :
    ((pure a : M α) >>= k) = k a := by
  show ((match k a with
    | (t2, r) => (([] : List Eff) ++ t2, r)) : List Eff × Except Exc β) = k a
  rcases h : k a with ⟨t, r⟩
  simp

theorem bind_emit_trace {β : Type} (e : Eff) (k : Unit → M β) :
    ((emit e >>= k) : M β).1 = e :: (k ()).1 := by
  show ((match k () with
    | (t2, r) => (([e] : List Eff) ++ t2, r)) : List Eff × Except Exc β).1 =
    e :: (k ()).1
  rcases h : k () with ⟨t2, r2⟩
  rfl

set_option maxHeartbeats 2000000 in

/-- Claim C9 (amended): without a configured cookie the handler replies
once and performs no other effect — no network call; with a cookie, for
a direct link the very first effect is the cache lookup for the note
id, before any network call (for short links one redirect-resolution
request precedes it, see the counterexample). -/
theorem claim_c9_cookie_and_cache (base : XhsEnv) (ck : String)
    (hck : ck.isEmpty = false) :
    (∀ env : XhsEnv, (process_xiaohongshu_url env "").run =
      ([.send (.plain "无法获取到小红书Cookie，请在配置中设置XHS_CK")], .ok ())) ∧
    (process_xiaohongshu_url (xhsC9Env base) ck).trace.head? =
      some (.cacheRead "n9") := by
  refine ⟨fun env => rfl, ?_⟩
  unfold process_xiaohongshu_url
  rw [if_neg (by simp [hck])]
  simp only [xhsC9Env, M.trace,
    show strContains "https://www.xiaohongshu.com/explore/n9" "xhslink" = false from rfl,
    Bool.false_eq_true, if_false, M.pure_bind]
  rw [bind_emit_trace]
  rfl

/-- Witness for claim C9 with a nonempty cookie over the base
environment. -/
theorem claim_c9_witness :
    (process_xiaohongshu_url xhsEnv0 "").run =
      ([.send (.plain "无法获取到小红书Cookie，请在配置中设置XHS_CK")], .ok ()) ∧
    (process_xiaohongshu_url (xhsC9Env xhsEnv0) "c").trace.head? =
      some (.cacheRead "n9") :=
  ⟨(claim_c9_cookie_and_cache xhsEnv0 "c" (by decide)).1 xhsEnv0,
   (claim_c9_cookie_and_cache xhsEnv0 "c" (by decide)).2⟩

/-- Counterexample for claim C9 as stated: for an `xhslink` short link
the first effect is the redirect-resolution network request; the cache
is consulted only afterwards. -/
theorem claim_c9_counterexample :
    (process_xiaohongshu_url xhsC9cEnv "ck").trace.head? =
      some (.net "http://xhslink.com/a/bc" true) ∧
    (process_xiaohongshu_url xhsC9cEnv "ck").trace.contains
      (Eff.cacheRead "n10") = true :=
  ⟨rfl, rfl⟩
